import Mathlib

/-
Verification of the core semantics of the rust-jmespath engine
(jmespath-community).  The definitions below are a shallow embedding of
the Rust sources: `src/jmespath/value.rs`, `value_eq.rs`, `interpreter.rs`,
`runtime.rs`, `functions/signature.rs`, `utils/number.rs` and
`functions/builtin/find_first.rs`.  Machine floats (`f64`) are embedded as
rationals together with explicit non-finite markers; `usize`/`isize`
arithmetic is embedded as `Nat`/`Int` with the overflow and saturation
behaviour of the source made explicit.  Rust panics (`unreachable!`,
failed `assert!`, arithmetic overflow in debug builds, `unwrap` on `None`,
out-of-bounds slicing) are embedded as a dedicated `panic` outcome of the
result monad.
-/

namespace JmesPath

/-- Error categories, from `errors/kind.rs`.  The Rust variant `Syntax` is
named `syntaxError` here. -/
inductive Kind where
  | invalidArity
  | invalidType
  | invalidValue
  | notANumber
  | undefinedVariable
  | unknownFunction
  | syntaxError
deriving DecidableEq, Repr

/-- Source position, from `errors/position.rs`. -/
structure Position where
  line : Nat
  column : Nat
deriving DecidableEq, Repr

/-- The error type, from `errors/error.rs`: a kind, a message and an
optional position. -/
structure Error where
  kind : Kind
  message : String
  position : Option Position
deriving DecidableEq, Repr

/-- Outcome of running a fragment of the Rust code: a value, a returned
`Err`, or a Rust panic (`unreachable!`, failed assertion, debug-build
integer overflow, `unwrap` on `None`, out-of-bounds slice index). -/
inductive RtResult (α : Type) where
  | ok (val : α)
  | err (e : Error)
  | panic
deriving DecidableEq, Repr

def RtResult.bind {α β : Type} : RtResult α → (α → RtResult β) → RtResult β
  | .ok v, f => f v
  | .err e, _ => .err e
  | .panic, _ => .panic

instance : Monad RtResult where
  pure := .ok
  bind := RtResult.bind

/-- The error kind of a result, when the result is a returned error. -/
def RtResult.errKind {α : Type} : RtResult α → Option Kind
  | .err e => some e.kind
  | _ => none

/-- Whether the result is a normally returned value. -/
def RtResult.isOk {α : Type} : RtResult α → Bool
  | .ok _ => true
  | _ => false

/-- `f64::EPSILON` is `2^-52`. -/
def EPSILON : ℚ := 1 / 2 ^ 52

/-- `float_eq` from `value_eq.rs`: absolute difference strictly below
`f64::EPSILON`. -/
def float_eq (a b : ℚ) : Bool := decide (|b - a| < EPSILON)

/-- Slice parameters, from `parser/ast.rs` (`Slice { start, stop, step }`,
each an `Option<isize>`). -/
structure Slice where
  start : Option Int
  stop : Option Int
  step : Option Int
deriving DecidableEq, Repr

mutual
/-- AST node kinds, from `parser/node_type.rs`, restricted to the node
kinds exercised by the claims.  Compound nodes hold `Vec<AST>` children in
Rust with lengths enforced by `assert_eq!` / fixed indexing; they are
embedded with that fixed arity (`Projection` children are
`[kind, left, right]`, `SubExpression`/`PipeExpression`/
`HashWildcardProjection` are `[left, right]`, `ArithmeticExpression` is
`[left, op, right]`, `Filter` holds the predicate at index 0). -/
inductive NodeType where
  | none
  | currentNode
  | unquotedIdentifier (name : String)
  | quotedIdentifier (raw : String)
  | rawString (s : String)
  | expression (inner : AST)
  | subExpression (left right : AST)
  | pipeExpression (left right : AST)
  | projection (kind left right : AST)
  | hashWildcardProjection (left right : AST)
  | filter (pred : AST)
  | flatten
  | listWildcard
  | slice (s : Slice)
  | arithmeticExpression (left op right : AST)
  | plus
  | minus
  | multiply
  | divide
  | modulo
  | div

/-- An AST node: a `NodeType` plus a `Position`, from `parser/ast.rs`. -/
inductive AST where
  | make (nt : NodeType) (pos : Position)
end

deriving instance DecidableEq for NodeType, AST
deriving instance Repr for NodeType, AST

def AST.node_type : AST → NodeType
  | .make nt _ => nt

def AST.position : AST → Position
  | .make _ p => p

/-- The value model, from `value.rs`.  `Number` wraps a finite non-NaN
`f64`, embedded as a rational; `Object` is the default build's
`BTreeMap<String, Value>`, embedded as its (key-sorted) entry list. -/
inductive Value where
  | null
  | boolean (b : Bool)
  | number (n : ℚ)
  | string (s : String)
  | array (items : List Value)
  | object (entries : List (String × Value))
  | expression (ast : AST)

def Value.is_null : Value → Bool
  | .null => true
  | _ => false

def Value.is_array : Value → Bool
  | .array _ => true
  | _ => false

def Value.is_str : Value → Bool
  | .string _ => true
  | _ => false

def Value.is_object : Value → Bool
  | .object _ => true
  | _ => false

def Value.is_bool : Value → Bool
  | .boolean _ => true
  | _ => false

def Value.is_number : Value → Bool
  | .number _ => true
  | _ => false

def Value.is_expression : Value → Bool
  | .expression _ => true
  | _ => false

/-- `Value::as_f64`, from `value.rs`. -/
def Value.as_f64 : Value → Option ℚ
  | .number n => some n
  | _ => none

/-- `Value::is_falsy`, from `value.rs`: `null`, `false`, empty string,
empty array and empty object are falsy; everything else is not. -/
def Value.is_falsy : Value → Bool
  | .array a => a.isEmpty
  | .boolean b => !b
  | .null => true
  | .string s => s.isEmpty
  | .object o => o.isEmpty
  | _ => false

def Value.is_truthy (v : Value) : Bool := !v.is_falsy

mutual
/-- `PartialEq for Value`, from `value_eq.rs`.  A left-hand `Expression`
is never equal to anything; numbers compare with `float_eq`; arrays and
objects compare pointwise (the default build's `BTreeMap` equality walks
the key-sorted entry sequences). -/
def valueEq : Value → Value → Bool
  | .expression _, _ => false
  | .null, o => o.is_null
  | .array a, o =>
    match o with
    | .array b => listValueEq a b
    | _ => false
  | .boolean b, o =>
    match o with
    | .boolean c => b == c
    | _ => false
  | .number n, o =>
    match o with
    | .number m => float_eq n m
    | _ => false
  | .string s, o =>
    match o with
    | .string t => s == t
    | _ => false
  | .object es, o =>
    match o with
    | .object fs => objValueEq es fs
    | _ => false

/-- `Vec<Value>` equality: pointwise, same length. -/
def listValueEq : List Value → List Value → Bool
  | [], [] => true
  | a :: as_, b :: bs => valueEq a b && listValueEq as_ bs
  | _, _ => false

/-- `BTreeMap<String, Value>` equality on the entry sequences: pointwise
on (key, value) pairs. -/
def objValueEq : List (String × Value) → List (String × Value) → Bool
  | [], [] => true
  | (k, v) :: es, (k2, v2) :: fs => k == k2 && valueEq v v2 && objValueEq es fs
  | _, _ => false
end

mutual
/-- A value that contains no `Value::Expression` anywhere. -/
def exprFree : Value → Bool
  | .expression _ => false
  | .array a => listExprFree a
  | .object es => objExprFree es
  | _ => true

def listExprFree : List Value → Bool
  | [] => true
  | a :: as_ => exprFree a && listExprFree as_

def objExprFree : List (String × Value) → Bool
  | [] => true
  | (_, v) :: es => exprFree v && objExprFree es
end

/-- `BTreeMap::contains_key` / indexing: look a key up in the entry list. -/
def lookupKey (id : String) : List (String × Value) → Option Value
  | [] => none
  | (k, v) :: es => if k = id then some v else lookupKey id es

/-- The common body of `visit_identifier` and `visit_quoted_identifier`
(`interpreter.rs` lines 56-89): an `Expression` current value hits
`unreachable!()` (a panic); an object yields the entry for the key, or
`Null` when the key is missing; every other value yields `Null`. -/
def identifierVisit (id : String) (v : Value) : RtResult Value :=
  match v with
  | .expression _ => .panic
  | .object es =>
    match lookupKey id es with
    | some w => .ok w
    | none => .ok .null
  | _ => .ok .null

def hexDigit? (c : Char) : Option Nat :=
  if '0' ≤ c ∧ c ≤ '9' then some (c.toNat - '0'.toNat)
  else if 'a' ≤ c ∧ c ≤ 'f' then some (c.toNat - 'a'.toNat + 10)
  else if 'A' ≤ c ∧ c ≤ 'F' then some (c.toNat - 'A'.toNat + 10)
  else none

/-- Modelled from the spec: decoding of a quoted-string lexeme by the
standard JSON library (`serde_json`, an external collaborator outside
`src/`).  Escapes are the spec table for quoted strings
(backslash, quote, slash, b, f, n, r, t, and u followed by four hex
digits); a high surrogate escape must be followed by a low surrogate
escape and the pair is combined; lone surrogates, raw control characters
and input after the closing quote are rejected.  The input list is the
lexeme body after the opening quote; the closing quote must end the
input. -/
def decodeJsonChars : List Char → Option (List Char)
  | [] => none
  | '"' :: rest => if rest.isEmpty then some [] else none
  | '\\' :: esc =>
    match esc with
    | '"' :: rs => (decodeJsonChars rs).map fun cs => '"' :: cs
    | '\\' :: rs => (decodeJsonChars rs).map fun cs => '\\' :: cs
    | '/' :: rs => (decodeJsonChars rs).map fun cs => '/' :: cs
    | 'b' :: rs => (decodeJsonChars rs).map fun cs => Char.ofNat 8 :: cs
    | 'f' :: rs => (decodeJsonChars rs).map fun cs => Char.ofNat 12 :: cs
    | 'n' :: rs => (decodeJsonChars rs).map fun cs => '\n' :: cs
    | 'r' :: rs => (decodeJsonChars rs).map fun cs => Char.ofNat 13 :: cs
    | 't' :: rs => (decodeJsonChars rs).map fun cs => '\t' :: cs
    | 'u' :: h1 :: h2 :: h3 :: h4 :: rs =>
      match hexDigit? h1, hexDigit? h2, hexDigit? h3, hexDigit? h4 with
      | some d1, some d2, some d3, some d4 =>
        let n := ((d1 * 16 + d2) * 16 + d3) * 16 + d4
        if 0xD800 ≤ n ∧ n ≤ 0xDBFF then
          match rs with
          | '\\' :: 'u' :: g1 :: g2 :: g3 :: g4 :: rs2 =>
            match hexDigit? g1, hexDigit? g2, hexDigit? g3, hexDigit? g4 with
            | some e1, some e2, some e3, some e4 =>
              let m := ((e1 * 16 + e2) * 16 + e3) * 16 + e4
              if 0xDC00 ≤ m ∧ m ≤ 0xDFFF then
                let scalar := 0x10000 + (n - 0xD800) * 0x400 + (m - 0xDC00)
                (decodeJsonChars rs2).map fun cs => Char.ofNat scalar :: cs
              else none
            | _, _, _, _ => none
          | _ => none
        else if 0xDC00 ≤ n ∧ n ≤ 0xDFFF then none
        else (decodeJsonChars rs).map fun cs => Char.ofNat n :: cs
      | _, _, _, _ => none
    | _ => none
  | c :: rest =>
    if c.toNat < 0x20 then none
    else (decodeJsonChars rest).map fun cs => c :: cs

/-- Decode a raw quoted lexeme (quotes included) as a JSON string. -/
def jsonDecodeString (raw : String) : Option String :=
  match raw.data with
  | '"' :: rest => (decodeJsonChars rest).map fun cs => String.mk cs
  | _ => none

/-- `Interpreter::unwrap_quoted_identifier` (`interpreter.rs` lines
571-582): re-decode the raw lexeme as a JSON string; a decode failure is
mapped to a `Syntax` error at the node position.  The message of that
error is `serde_json`'s own text, which is abstracted here. -/
def unwrap_quoted_identifier (raw : String) (pos : Position) : RtResult String :=
  match jsonDecodeString raw with
  | some s => .ok s
  | none => .err ⟨.syntaxError, "invalid JSON string literal", some pos⟩

/-- The local `flatten_array` of `Interpreter::flatten`: splice nested
arrays in at one level, pass other elements through. -/
def flatten_array : List Value → List Value
  | [] => []
  | .array nested :: rest => nested ++ flatten_array rest
  | x :: rest => x :: flatten_array rest

/-- The local `compute_slice_params` of `Interpreter::slice`
(`interpreter.rs` lines 263-290).  A zero step yields the syntax-builder
error with kind overridden to `InvalidValue`, reason
"slice step cannot be 0", at the slice node's position.  The default
start for a negative step is `(array_length - 1) as isize`, a `usize`
subtraction: in a debug build it panics (overflow) when the length is 0,
which the embedding makes explicit. -/
def compute_slice_params (slice : Slice) (array_length : Nat) (pos : Position) :
    RtResult (Int × Int × Int) :=
  let len : Int := array_length
  let step := slice.step.getD 1
  if step = 0 then
    .err ⟨.invalidValue, "slice step cannot be 0", some pos⟩
  else
    let startR : RtResult Int :=
      match slice.start with
      | some x => .ok (if x < 0 then x + len else x)
      | none =>
        if step > 0 then .ok 0
        else if array_length = 0 then .panic
        else .ok ((array_length - 1 : Nat) : Int)
    startR.bind fun start =>
      let stop : Int :=
        match slice.stop with
        | some x => if x < 0 then x + len else x
        | none => if step > 0 then len else -1
      .ok (start, stop, step)

/-- The local `slice_array` of `Interpreter::slice` (`interpreter.rs`
lines 292-306): iterate `n` from 0 to `ceil((stop - start) / step)`,
keeping `vector[start + n * step]` whenever that index lies in
`[0, len)`. -/
def slice_array {α : Type} (vector : List α) (start stop step : Int) : List α :=
  let len : Int := vector.length
  let count : Int := ⌈((stop - start : ℚ)) / (step : ℚ)⌉
  (List.range count.toNat).filterMap fun n =>
    let index := start + n * step
    if 0 ≤ index ∧ index < len then vector.get? index.toNat else none

/-- A machine float: a finite value (embedded as a rational) or one of
the non-finite `f64` values that `Number::from` rejects. -/
inductive FloatVal where
  | finite (q : ℚ)
  | nan
  | posInf
  | negInf
deriving DecidableEq, Repr

/-- Truncation toward zero of a rational. -/
def ratTrunc (q : ℚ) : Int := if 0 ≤ q then ⌊q⌋ else -⌊-q⌋

/-- The IEEE-754 binary64 overflow threshold for round-to-nearest-even:
an exact result whose magnitude reaches `2^1024 - 2^970` (the midpoint
between the largest finite `f64`, `2^1024 - 2^971`, and `2^1024`) rounds
to an infinity; anything strictly below it rounds to a finite `f64`. -/
def overflow_threshold : ℚ := 2 ^ 1024 - 2 ^ 970

/-- Rounding of an exact rational result to `f64`: the overflow rule of
round-to-nearest-even is modelled exactly (magnitudes at or above
`overflow_threshold` become the corresponding infinity), while in-range
results keep their exact value (53-bit significand rounding of in-range
results is not modelled). -/
def to_f64 (q : ℚ) : FloatVal :=
  if overflow_threshold ≤ q then .posInf
  else if q ≤ -overflow_threshold then .negInf
  else .finite q

/-- `f64` addition of finite operands: the exact sum, with overflow to
infinity per `to_f64`. -/
def fAdd (a b : ℚ) : FloatVal := to_f64 (a + b)

/-- `f64` subtraction of finite operands: the exact difference, with
overflow to infinity per `to_f64`. -/
def fSub (a b : ℚ) : FloatVal := to_f64 (a - b)

/-- `f64` multiplication of finite operands: the exact product, with
overflow to infinity per `to_f64`. -/
def fMul (a b : ℚ) : FloatVal := to_f64 (a * b)

/-- `f64` division: division by zero produces an infinity (or NaN for
0/0); otherwise the exact quotient, with overflow to infinity per
`to_f64`. -/
def fDiv (a b : ℚ) : FloatVal :=
  if b = 0 then (if a = 0 then .nan else if 0 < a then .posInf else .negInf)
  else to_f64 (a / b)

/-- Rust `%` on `f64`: the remainder `a - b * trunc(a / b)` (sign of the
dividend); `x % 0.0` is NaN.  The IEEE remainder of finite operands is
computed exactly (it is always representable) and its magnitude is below
the divisor's, so it never overflows. -/
def f64_rem (a b : ℚ) : FloatVal :=
  if b = 0 then .nan else .finite (a - b * (ratTrunc (a / b) : ℚ))

def i64_min : Int := -(2 ^ 63)

def i64_max : Int := 2 ^ 63 - 1

/-- Rust `as i64` on an `f64`: truncate toward zero and saturate at the
`i64` bounds; NaN casts to 0. -/
def cast_f64_to_i64 : FloatVal → Int
  | .finite q => max i64_min (min i64_max (ratTrunc q))
  | .nan => 0
  | .posInf => i64_max
  | .negInf => i64_min

/-- Round `n / d` (with `d` a positive power of two) to the nearest
integer, ties to even. -/
def rne_div (n d : Nat) : Nat :=
  let q := n / d
  let r := n % d
  if 2 * r < d then q
  else if 2 * r > d then q + 1
  else if q % 2 = 0 then q else q + 1

/-- Rust `as f64` on an `i64` (round to nearest, ties to even):
integers of magnitude up to `2^53` are exact; larger magnitudes round to
the nearest multiple of `2^(log2 |i| - 52)`.  In particular
`i64::MAX = 2^63 - 1` rounds up to `2^63`; the result never overflows
`f64`. -/
def i64_as_f64 (i : Int) : ℚ :=
  let n := i.natAbs
  let mag : ℚ :=
    if n ≤ 2 ^ 53 then (n : ℚ)
    else
      let k := Nat.log2 n - 52
      ((rne_div n (2 ^ k) : Nat) : ℚ) * 2 ^ k
  if i < 0 then -mag else mag

/-- `Number::from` / `Value::from_f64` (`utils/number.rs` lines 16-24):
NaN and infinities are rejected with a `NotANumber` error. -/
def Value.from_f64 : FloatVal → Except Error Value
  | .finite q => .ok (.number q)
  | _ => .error ⟨.notANumber, "An invalid number was specified.", none⟩

/-- How `visit_arithmetic_binary`/`visit_arithmetic_unary` surface a
`Value::from_f64` failure: a `NotANumber` error at the operator node's
position (`interpreter.rs` lines 429-437). -/
def from_f64_rt (x : FloatVal) (pos : Position) : RtResult Value :=
  match Value.from_f64 x with
  | .ok v => .ok v
  | .error _ =>
    .err ⟨.notANumber, "the arithmetic expression evaluated to an invalid number", some pos⟩

/-- The error for a non-number operand of an arithmetic expression
(`interpreter.rs` lines 403-416): a `Syntax` error at the operator
position.  The real message also embeds the offending value's display
form, which is abstracted here. -/
def arith_side_error (side : String) (pos : Position) : Error :=
  ⟨.syntaxError,
    "arithmetic expression required its " ++ side ++
      " hand side to evaluate to a number", some pos⟩

/-- The operator dispatch of `visit_arithmetic_binary` (`interpreter.rs`
lines 418-437): `+ - * /` directly as `f64` operations (overflowing to
infinity, which `Value::from_f64` then rejects as `NotANumber`); `%` and
`//` re-cast the float result through `as i64` truncation and back
through `as f64` — an `i64` always fits in an `f64`, so these are always
finite; any other operator node is `unreachable!()`. -/
def arithmetic_result (op : NodeType) (lhs rhs : ℚ) (pos : Position) : RtResult Value :=
  match op with
  | .divide => from_f64_rt (fDiv lhs rhs) pos
  | .minus => from_f64_rt (fSub lhs rhs) pos
  | .multiply => from_f64_rt (fMul lhs rhs) pos
  | .plus => from_f64_rt (fAdd lhs rhs) pos
  | .modulo => from_f64_rt (.finite (i64_as_f64 (cast_f64_to_i64 (f64_rem lhs rhs)))) pos
  | .div => from_f64_rt (.finite (i64_as_f64 (cast_f64_to_i64 (fDiv lhs rhs)))) pos
  | _ => .panic

mutual
/-- `Interpreter::visit` (`interpreter.rs` lines 534-567), restricted to
the node kinds embedded here.  Node kinds outside the dispatch table
(operator markers, `None`, raw `Filter`/`Flatten`/`ListWildcard`/`Slice`
nodes) fall through to `unreachable!()`. -/
def visit (ast : AST) (v : Value) : RtResult Value :=
  match ast with
  | .make .currentNode _ => .ok v
  | .make (.rawString s) _ => .ok (.string s)
  | .make (.expression inner) _ => .ok (.expression inner)
  | .make (.unquotedIdentifier name) _ => identifierVisit name v
  | .make (.quotedIdentifier raw) pos =>
    (unwrap_quoted_identifier raw pos).bind fun id => identifierVisit id v
  | .make (.subExpression l r) _ =>
    (visit l v).bind fun left =>
      match left with
      | .null => .ok .null
      | _ => visit r left
  | .make (.pipeExpression l r) _ =>
    (visit l v).bind fun left => visit r left
  | .make (.projection k l r) _ =>
    (projection_intermediate k l v).bind fun left =>
      match r.node_type with
      | .none => .ok left
      | _ =>
        match left with
        | .array items => (project_right r items).bind fun res => .ok (.array res)
        | .string s => visit r (.string s)
        | _ => .ok .null
  | .make (.hashWildcardProjection l r) _ =>
    (left_or_current l v).bind fun obj =>
      match obj with
      | .object entries =>
        let values := (entries.map Prod.snd).filter fun x => !x.is_null
        match r.node_type with
        | .none => .ok (.array values)
        | _ => (project_right r values).bind fun res => .ok (.array res)
      | _ => .ok .null
  | .make (.arithmeticExpression l op r) _ =>
    match l with
    | .make .none _ => visit_arithmetic_unary op r v
    | lb => visit_arithmetic_binary lb op r v
  | _ => .panic
termination_by (sizeOf ast, 0)

/-- The shared `match node.node_type { None => Ok(value.clone()), _ =>
visit }` pattern of `filter`, `flatten`, `list_wildcard`, `slice` and
`visit_hash_wildcard_projection`. -/
def left_or_current (node : AST) (v : Value) : RtResult Value :=
  match node with
  | .make .none _ => .ok v
  | .make nt p => visit (.make nt p) v
termination_by (sizeOf node + 1, 0)

/-- The computation of `left` in `visit_projection` (`interpreter.rs`
lines 169-176), dispatching on the kind node to `filter`, `flatten`,
`list_wildcard` or `slice`; any other kind node is `unreachable!()`. -/
def projection_intermediate (k l : AST) (v : Value) : RtResult Value :=
  match k with
  | .make (.filter pred) _ =>
    (left_or_current l v).bind fun arr =>
      match arr with
      | .array items => (filter_loop pred items).bind fun res => .ok (.array res)
      | _ => .ok .null
  | .make .flatten _ =>
    (left_or_current l v).bind fun arr =>
      match arr with
      | .array items => .ok (.array (flatten_array items))
      | _ => .ok .null
  | .make .listWildcard _ =>
    (left_or_current l v).bind fun arr =>
      .ok (if arr.is_array then arr else .null)
  | .make (.slice s) kpos =>
    (left_or_current l v).bind fun arr =>
      match arr with
      | .array items =>
        (compute_slice_params s items.length kpos).bind fun p =>
          .ok (.array (slice_array items p.1 p.2.1 p.2.2))
      | .string text =>
        (compute_slice_params s text.length kpos).bind fun p =>
          .ok (.string (String.mk (slice_array text.data p.1 p.2.1 p.2.2)))
      | _ => .ok .null
  | _ => .panic
termination_by (sizeOf k + sizeOf l + 1, 1)

/-- The per-element loop of `visit_projection` (`interpreter.rs` lines
182-188) and `visit_hash_wildcard_projection` (lines 156-162): apply
`right` to each element and keep the non-`Null` results. -/
def project_right (r : AST) (items : List Value) : RtResult (List Value) :=
  match items with
  | [] => .ok []
  | item :: rest =>
    (visit r item).bind fun res =>
      (project_right r rest).bind fun tail =>
        .ok (if res.is_null then tail else res :: tail)
termination_by (sizeOf r + 1, items.length + 1)

/-- The predicate loop of `Interpreter::filter` (`interpreter.rs` lines
208-216): keep the elements on which the predicate is truthy. -/
def filter_loop (pred : AST) (items : List Value) : RtResult (List Value) :=
  match items with
  | [] => .ok []
  | item :: rest =>
    (visit pred item).bind fun filtered =>
      (filter_loop pred rest).bind fun tail =>
        .ok (if filtered.is_truthy then item :: tail else tail)
termination_by (sizeOf pred + 1, items.length + 1)

/-- `visit_arithmetic_unary` (`interpreter.rs` lines 368-394). -/
def visit_arithmetic_unary (op r : AST) (v : Value) : RtResult Value :=
  (visit r v).bind fun right =>
    match right.as_f64 with
    | none => .err (arith_side_error "right" op.position)
    | some rhs =>
      match op.node_type with
      | .minus => from_f64_rt (.finite (-rhs)) op.position
      | .plus => .ok right
      | _ => .panic
termination_by (sizeOf op + sizeOf r + 1, 0)

/-- `visit_arithmetic_binary` (`interpreter.rs` lines 395-438). -/
def visit_arithmetic_binary (l op r : AST) (v : Value) : RtResult Value :=
  (visit l v).bind fun left =>
    (visit r v).bind fun right =>
      match left.as_f64 with
      | none => .err (arith_side_error "left" op.position)
      | some lhs =>
        match right.as_f64 with
        | none => .err (arith_side_error "right" op.position)
        | some rhs => arithmetic_result op.node_type lhs rhs op.position
termination_by (sizeOf l + sizeOf op + sizeOf r + 1, 0)
end
/-- Data types for function parameters, from `functions/types.rs`. -/
inductive DataType where
  | any
  | null
  | boolean
  | number
  | string
  | array
  | object
  | expRef
deriving DecidableEq, Repr

/-- `ParamTypes`, from `functions/signature.rs`: a single data type or a
union of data types. -/
inductive ParamTypes where
  | of (t : DataType)
  | any (ts : List DataType)
deriving DecidableEq, Repr

/-- `Parameter`, from `functions/signature.rs`. -/
inductive Parameter where
  | required (t : ParamTypes)
  | optional (t : ParamTypes)
  | variadic (t : ParamTypes)
deriving DecidableEq, Repr

def Parameter.is_variadic : Parameter → Bool
  | .variadic _ => true
  | _ => false

def Parameter.is_required : Parameter → Bool
  | .required _ => true
  | _ => false

def Parameter.get_param_types : Parameter → ParamTypes
  | .required t => t
  | .optional t => t
  | .variadic t => t

/-- `Signature::is_variadic`: true when the last parameter is variadic. -/
def Signature.is_variadic (params : List Parameter) : Bool :=
  match params.getLast? with
  | some p => p.is_variadic
  | none => false

/-- `Signature::get_min_args_count`: the number of required and variadic
parameters. -/
def Signature.get_min_args_count (params : List Parameter) : Nat :=
  (params.filter fun p => p.is_required || p.is_variadic).length

/-- `Signature::get_max_args_count`: unbounded for variadic signatures,
otherwise the parameter count. -/
def Signature.get_max_args_count (params : List Parameter) : Option Nat :=
  if Signature.is_variadic params then none else some params.length

/-- A registered JMESPath function: name, signature, parameter names
(defaulting to `param0`, `param1`, ...) and body
(`functions/function.rs`). -/
structure Function where
  name : String
  params : List Parameter
  paramName : Nat → String
  execute : List Value → RtResult Value

/-- `Runtime::matches_data_type` (`runtime.rs` lines 240-255): `Any`
always matches, `Null` never matches, other types match the argument's
tag. -/
def matches_data_type (arg : Value) (data_types : List DataType) : Bool :=
  data_types.any fun x =>
    match x with
    | .any => true
    | .null => false
    | .array => arg.is_array
    | .boolean => arg.is_bool
    | .expRef => arg.is_expression
    | .number => arg.is_number
    | .object => arg.is_object
    | .string => arg.is_str

/-- The `InvalidType` message built by the invalid-type error builder.
The real message also embeds the expected type list and the received
value's display form; only the fixed frame is modelled (no claim reads
this text). -/
def invalid_type_message (f p : String) : String :=
  "while calling function \x27" ++ f ++ "\x27, the parameter \x27$" ++ p ++
    "\x27 received a value of an unexpected type"

/-- `Runtime::ensure_matches_data_type` (`runtime.rs` lines 221-239). -/
def ensure_matches_data_type (function_name parameter_name : String) (arg : Value)
    (data_types : List DataType) : RtResult Unit :=
  if matches_data_type arg data_types then .ok ()
  else .err ⟨.invalidType, invalid_type_message function_name parameter_name, none⟩

/-- `Runtime::ensure_matches_parameter` (`runtime.rs` lines 205-220). -/
def ensure_matches_parameter (function_name parameter_name : String) (arg : Value)
    (param : Parameter) : RtResult Unit :=
  match param.get_param_types with
  | .of t => ensure_matches_data_type function_name parameter_name arg [t]
  | .any ts => ensure_matches_data_type function_name parameter_name arg ts

/-- The "too few arguments" message of `errors/invalid_arity.rs`
(`format`, min branch). -/
def too_few_arguments_message (fname : String) (min count : Nat) (is_var : Bool) : String :=
  let more := if is_var then "or more " else ""
  let specified := if count = 0 then "none" else "only " ++ toString count
  let plural := if min > 1 then "s" else ""
  "the function \x27" ++ fname ++ "\x27 expects " ++ toString min ++ " argument" ++
    plural ++ " " ++ more ++ "but " ++ specified ++ " were specified"

/-- The "too many arguments" message of `errors/invalid_arity.rs`
(`format`, max branch). -/
def too_many_arguments_message (fname : String) (max count : Nat) : String :=
  let plural := if max > 1 then "s" else ""
  "the function \x27" ++ fname ++ "\x27 expects at most " ++ toString max ++
    " argument" ++ plural ++ " but " ++ toString count ++ " were specified"

/-- `Error::too_few_arguments` (`errors/error.rs`). -/
def Error.too_few_arguments (fname : String) (min count : Nat) (is_var : Bool) : Error :=
  ⟨.invalidArity, too_few_arguments_message fname min count is_var, none⟩

/-- `Error::too_many_arguments` (`errors/error.rs`). -/
def Error.too_many_arguments (fname : String) (max count : Nat) : Error :=
  ⟨.invalidArity, too_many_arguments_message fname max count, none⟩

/-- `Error::unknown_function` (`errors/error.rs`). -/
def Error.unknown_function (fname : String) : Error :=
  ⟨.unknownFunction, "the function \x27" ++ fname ++ "\x27 does not exist", none⟩

/-- `Runtime::ensure_arity` (`runtime.rs` lines 132-157). -/
def ensure_arity (func : Function) (args : List Value) : RtResult Unit :=
  let params := func.params
  let count := args.length
  let is_var := Signature.is_variadic params
  let max_count := Signature.get_max_args_count params
  let min_count := Signature.get_min_args_count params
  if count < min_count then
    .err (Error.too_few_arguments func.name min_count count is_var)
  else
    match max_count with
    | some n =>
      if count > n then .err (Error.too_many_arguments func.name n count) else .ok ()
    | none => .ok ()

/-- The first loop of `Runtime::ensure_type` (`runtime.rs` lines
169-182): check `args[i]` against `params[i]` for
`i < min(len(args), len(params))`, recording the last checked index.
Returns the final value of `last_index` (which stays at its initial
value when the loop body never runs). -/
def ensure_type_for_loop (func : Function) (args : List Value) (i last_index : Nat) :
    RtResult Nat :=
  if h : i < args.length then
    if hp : i < func.params.length then
      (ensure_matches_parameter func.name (func.paramName i) (args.get ⟨i, h⟩)
          (func.params.get ⟨i, hp⟩)).bind fun _ =>
        ensure_type_for_loop func args (i + 1) i
    else .ok last_index
  else .ok last_index
termination_by args.length - i

/-- The `while` loop of `Runtime::ensure_type` (`runtime.rs` lines
186-201).  The condition block increments `last_index` and then compares
it against `args.len() - 1`; the loop body checks
`args[last_index]` against the last parameter and increments
`last_index` again.  `args.len() - 1` is a `usize` subtraction, which in
a debug build panics when no arguments were supplied; the two `assert!`
calls are panics as well. -/
def ensure_type_while_loop (func : Function) (args : List Value) (li : Nat) :
    RtResult Unit :=
  if args.length = 0 then .panic
  else
    let li2 := li + 1
    if li2 < args.length - 1 then
      match func.params.getLast? with
      | none => .panic
      | some p =>
        if !p.is_variadic then .panic
        else
          (ensure_matches_parameter func.name (func.paramName (func.params.length - 1))
              (args.getD li2 .null) p).bind fun _ =>
            ensure_type_while_loop func args (li2 + 1)
    else .ok ()
termination_by args.length - li

/-- `Runtime::ensure_type` (`runtime.rs` lines 158-204). -/
def ensure_type (func : Function) (args : List Value) : RtResult Unit :=
  (ensure_type_for_loop func args 0 0).bind fun last_index =>
    ensure_type_while_loop func args last_index

/-- `Runtime::call` (`runtime.rs` lines 118-131): look the function up,
check arity, check types, then run the body; an unknown name yields an
`UnknownFunction` error.  The registry is embedded as the lookup
function. -/
def Runtime.call (lookup : String → Option Function) (fname : String)
    (args : List Value) : RtResult Value :=
  match lookup fname with
  | some func =>
    (ensure_arity func args).bind fun _ =>
      (ensure_type func args).bind fun _ =>
        func.execute args
  | none => .err (Error.unknown_function fname)

/-- `args[i].as_str().unwrap().chars().collect()`: panics when the index
is out of bounds or the argument is not a string. -/
def argStr (args : List Value) (i : Nat) : RtResult (List Char) :=
  match args.get? i with
  | some (.string s) => .ok s.data
  | some _ => .panic
  | none => .panic

/-- `args[i].as_number().unwrap()`: panics when the index is out of
bounds or the argument is not a number. -/
def argNum (args : List Value) (i : Nat) : RtResult ℚ :=
  match args.get? i with
  | some (.number n) => .ok n
  | some _ => .panic
  | none => .panic

/-- `find_first::is_integer` (`builtin/find_first.rs` lines 65-69):
`number.floor() == number`. -/
def is_integer (n : ℚ) : Bool := decide ((⌊n⌋ : ℚ) = n)

/-- The `InvalidValue` message of `errors/invalid_value.rs`.  The real
message also embeds the received value's display form; only the fixed
frame is modelled (no claim reads this text). -/
def invalid_value_message (f p expected : String) : String :=
  "while calling function \x27" ++ f ++ "\x27, the parameter \x27$" ++ p ++
    "\x27 is invalid: expected " ++ expected ++ " instead"

/-- The body of the builtin `find_first` (`builtin/find_first.rs` lines
19-63), run after the runtime checks.  Notable points taken directly
from the source: the empty-subject/empty-needle check precedes everything
else; `start` defaults to 0 and `end` to the subject's code-point length;
the integerness check uses `is_integer`; the effective start is
`max(start, 0)` and the effective end `min(end, len)` cast `as usize`
(saturating at 0) — the subject length is never added to a negative
index; the slice `subject[start..end]` panics when the effective start
exceeds the effective end. -/
def find_first_body (args : List Value) : RtResult Value :=
  (argStr args 0).bind fun subject =>
    (argStr args 1).bind fun sub =>
      if subject.length = 0 ∨ sub.length = 0 then .ok .null
      else
        let infinite : ℚ := subject.length
        (if args.length > 2 then argNum args 2 else .ok 0).bind fun start =>
          (if args.length > 3 then argNum args 3 else .ok infinite).bind fun stop =>
            if ¬ is_integer start then
              .err ⟨.invalidValue, invalid_value_message "find_first" "start" "an integer",
                none⟩
            else if ¬ is_integer stop then
              .err ⟨.invalidValue, invalid_value_message "find_first" "end" "an integer",
                none⟩
            else
              let startN : Nat := (⌊max start 0⌋).toNat
              let endN : Nat := (⌊min stop infinite⌋).toNat
              if startN > endN then .panic
              else
                let extract := (subject.drop startN).take (endN - startN)
                let m := sub.length
                match (List.range (extract.length + 1 - m)).find?
                    (fun i => (extract.drop i).take m == sub) with
                | some offset => .ok (.number ((offset + startN : Nat) : ℚ))
                | none => .ok .null

/-- The index handling that claim C6 attributes to `find_first`
(following the spec's words, for comparison with `find_first_body`): a
negative `start`/`end` has the subject's code-point length added and is
then clamped to `[0, len]`; the search looks for the needle inside
`[start, end)` of the subject. -/
def find_first_claimed (args : List Value) : RtResult Value :=
  (argStr args 0).bind fun subject =>
    (argStr args 1).bind fun sub =>
      if subject.length = 0 ∨ sub.length = 0 then .ok .null
      else
        let len : Int := subject.length
        let infinite : ℚ := subject.length
        (if args.length > 2 then argNum args 2 else .ok 0).bind fun start =>
          (if args.length > 3 then argNum args 3 else .ok infinite).bind fun stop =>
            if ¬ is_integer start then
              .err ⟨.invalidValue, invalid_value_message "find_first" "start" "an integer",
                none⟩
            else if ¬ is_integer stop then
              .err ⟨.invalidValue, invalid_value_message "find_first" "end" "an integer",
                none⟩
            else
              let adjust : ℚ → Nat := fun x =>
                let i : Int := ⌊x⌋
                let j : Int := if x < 0 then i + len else i
                (max 0 (min j len)).toNat
              let startN := adjust start
              let endN := adjust stop
              let extract := (subject.drop startN).take (endN - startN)
              let m := sub.length
              match (List.range (extract.length + 1 - m)).find?
                  (fun i => (extract.drop i).take m == sub) with
              | some offset => .ok (.number ((offset + startN : Nat) : ℚ))
              | none => .ok .null

/-- The unknown position `(0, 0)` (`Position::default`). -/
def posZero : Position := ⟨0, 0⟩

/-- The fold of the `sum` test function of `runtime.rs` (`tests`
module): `args.iter().fold(0.0, |acc, cur| acc + cur.as_f64().unwrap())`;
`unwrap` on a non-number argument panics. -/
def sum_fold : List Value → ℚ → RtResult ℚ
  | [], acc => .ok acc
  | v :: rest, acc =>
    match v.as_f64 with
    | some q => sum_fold rest (acc + q)
    | none => .panic

/-- The variadic `sum` function registered in the `runtime.rs` tests:
signature `[Variadic(Of(Number))]`, body summing `as_f64().unwrap()` of
every argument. -/
def sum_function : Function where
  name := "sum"
  params := [.variadic (.of .number)]
  paramName := fun i => "param" ++ toString i
  execute := fun args => (sum_fold args 0).bind fun s => .ok (.number s)

/-- The binary `add` function registered in the `runtime.rs` tests:
signature `[Required(Of(Number)), Required(Of(Number))]`, body adding
`args[0].as_f64().unwrap()` and `args[1].as_f64().unwrap()`. -/
def add_function : Function where
  name := "add"
  params := [.required (.of .number), .required (.of .number)]
  paramName := fun i => "param" ++ toString i
  execute := fun args =>
    (argNum args 0).bind fun i => (argNum args 1).bind fun j => .ok (.number (i + j))

theorem RtResult.bind_ok {α β : Type} (v : α) (f : α → RtResult β) :
    RtResult.bind (.ok v) f = f v := rfl

theorem RtResult.bind_err {α β : Type} (e : Error) (f : α → RtResult β) :
    RtResult.bind (.err e) f = .err e := rfl

theorem RtResult.bind_panic {α β : Type} (f : α → RtResult β) :
    RtResult.bind .panic f = .panic := rfl

/-- The element loop of a projection only ever emits non-`Null`
values. -/
theorem project_right_no_null (r : AST) :
    ∀ (items res : List Value), project_right r items = .ok res → Value.null ∉ res := by
  intro items
  induction items with
  | nil =>
    intro res h
    rw [project_right] at h
    cases h
    simp
  | cons item rest ih =>
    intro res h
    rw [project_right] at h
    cases hv : visit r item with
    | ok resv =>
      rw [hv, RtResult.bind_ok] at h
      cases ht : project_right r rest with
      | ok tail =>
        rw [ht, RtResult.bind_ok] at h
        cases h
        by_cases hn : resv.is_null = true
        · simpa [hn] using ih tail ht
        · simp only [hn]
          simp only [Bool.not_eq_true] at hn
          intro hmem
          rcases List.mem_cons.mp hmem with hx | hx
          · cases resv <;> simp [Value.is_null] at hn hx ⊢
          · exact ih tail ht hx
      | err e => rw [ht, RtResult.bind_err] at h; cases h
      | panic => rw [ht, RtResult.bind_panic] at h; cases h
    | err e => rw [hv, RtResult.bind_err] at h; cases h
    | panic => rw [hv, RtResult.bind_panic] at h; cases h

mutual
/-- `Value` equality is symmetric. -/
theorem valueEq_symm : ∀ (a b : Value), valueEq a b = valueEq b a
  | .null, b => by cases b <;> simp [valueEq, Value.is_null]
  | .boolean x, b => by cases b <;> simp [valueEq, Value.is_null, Bool.beq_comm]
  | .number n, b => by
    cases b <;> simp [valueEq, Value.is_null, float_eq, abs_sub_comm]
  | .string s, b => by cases b <;> simp [valueEq, Value.is_null, Bool.beq_comm]
  | .array xs, b => by
    cases b <;> simp [valueEq, Value.is_null]
    exact listValueEq_symm xs _
  | .object es, b => by
    cases b <;> simp [valueEq, Value.is_null]
    exact objValueEq_symm es _
  | .expression e, b => by cases b <;> simp [valueEq, Value.is_null]

theorem listValueEq_symm : ∀ (xs ys : List Value), listValueEq xs ys = listValueEq ys xs
  | [], [] => rfl
  | [], _ :: _ => rfl
  | _ :: _, [] => rfl
  | a :: as_, b :: bs => by
    simp [listValueEq, valueEq_symm a b, listValueEq_symm as_ bs]

theorem objValueEq_symm :
    ∀ (es fs : List (String × Value)), objValueEq es fs = objValueEq fs es
  | [], [] => rfl
  | [], _ :: _ => rfl
  | _ :: _, [] => rfl
  | (k, v) :: es, (k2, v2) :: fs => by
    simp [objValueEq, Bool.beq_comm, valueEq_symm v v2, objValueEq_symm es fs]
end

mutual
/-- `Value` equality is reflexive on values containing no
`Expression`. -/
theorem valueEq_refl : ∀ (v : Value), exprFree v = true → valueEq v v = true
  | .null, _ => rfl
  | .boolean b, _ => by simp [valueEq]
  | .number n, _ => by
    simp [valueEq, float_eq, EPSILON]
  | .string s, _ => by simp [valueEq]
  | .array xs, h => by
    simp only [exprFree] at h
    simpa [valueEq] using listValueEq_refl xs h
  | .object es, h => by
    simp only [exprFree] at h
    simpa [valueEq] using objValueEq_refl es h
  | .expression e, h => by simp [exprFree] at h

theorem listValueEq_refl : ∀ (xs : List Value), listExprFree xs = true → listValueEq xs xs = true
  | [], _ => rfl
  | a :: as_, h => by
    simp only [listExprFree, Bool.and_eq_true] at h
    simp [listValueEq, valueEq_refl a h.1, listValueEq_refl as_ h.2]

theorem objValueEq_refl :
    ∀ (es : List (String × Value)), objExprFree es = true → objValueEq es es = true
  | [], _ => rfl
  | (k, v) :: es, h => by
    simp only [objExprFree, Bool.and_eq_true] at h
    simp [objValueEq, valueEq_refl v h.1, objValueEq_refl es h.2]
end

/-- Claim C1, counterexample: evaluating an unquoted identifier against a
`Value::Expression` current value does not return `Null` — it hits
`unreachable!()` (a panic), so identifier evaluation can fail to
return. -/
theorem C1_counterexample :
    visit (.make (.unquotedIdentifier "foo") posZero)
        (.expression (.make .currentNode posZero)) = .panic
    ∧ (RtResult.panic ≠ (.ok .null : RtResult Value)) :=
  ⟨by simp [visit, identifierVisit], fun h => RtResult.noConfusion h⟩

/-- Claim C1, amended: for every value that is neither an object nor an
`Expression`, unquoted identifier evaluation returns `Null`; on an object
whose key is missing it returns `Null`; unquoted identifier evaluation
never returns an error (on an `Expression` current value it panics via
`unreachable!` instead of returning); a quoted identifier whose raw
lexeme decodes as a JSON string behaves the same way, and when decoding
fails it returns a `Syntax` error at the node position. -/
theorem C1_amended :
    (∀ (name : String) (pos : Position) (v : Value),
        v.is_object = false → v.is_expression = false →
        visit (.make (.unquotedIdentifier name) pos) v = .ok .null)
    ∧ (∀ (name : String) (pos : Position) (entries : List (String × Value)),
        lookupKey name entries = none →
        visit (.make (.unquotedIdentifier name) pos) (.object entries) = .ok .null)
    ∧ (∀ (name : String) (pos : Position) (v : Value) (e : Error),
        visit (.make (.unquotedIdentifier name) pos) v ≠ .err e)
    ∧ (∀ (raw id : String) (pos : Position) (v : Value),
        jsonDecodeString raw = some id →
        v.is_object = false → v.is_expression = false →
        visit (.make (.quotedIdentifier raw) pos) v = .ok .null)
    ∧ (∀ (raw : String) (pos : Position) (v : Value),
        jsonDecodeString raw = none →
        visit (.make (.quotedIdentifier raw) pos) v
          = .err ⟨.syntaxError, "invalid JSON string literal", some pos⟩) := by
  refine ⟨?_, ?_, ?_, ?_, ?_⟩
  · intro name pos v h1 h2
    cases v <;> simp_all [visit, identifierVisit, Value.is_object, Value.is_expression]
  · intro name pos entries h
    simp [visit, identifierVisit, h]
  · intro name pos v e
    cases v <;> simp [visit, identifierVisit]
    next entries =>
      cases hk : lookupKey name entries <;> simp [hk]
  · intro raw id pos v hdec h1 h2
    have hu : unwrap_quoted_identifier raw pos = .ok id := by
      simp [unwrap_quoted_identifier, hdec]
    cases v <;>
      simp_all [visit, identifierVisit, hu, RtResult.bind_ok, Value.is_object,
        Value.is_expression]
  · intro raw pos v hdec
    simp [visit, unwrap_quoted_identifier, hdec, RtResult.bind]

/-- Claim C1, witness: the amended statement at concrete inputs. -/
theorem C1_witness :
    visit (.make (.unquotedIdentifier "foo") posZero) (.number 1) = .ok .null
    ∧ visit (.make (.unquotedIdentifier "foo") posZero)
        (.object [("bar", .number 1)]) = .ok .null
    ∧ visit (.make (.unquotedIdentifier "foo") posZero) (.string "s")
        ≠ .err ⟨.syntaxError, "boom", none⟩
    ∧ visit (.make (.quotedIdentifier "\"foo\"") posZero) (.number 1) = .ok .null
    ∧ visit (.make (.quotedIdentifier "\"a") posZero) (.number 1)
        = .err ⟨.syntaxError, "invalid JSON string literal", some posZero⟩ :=
  ⟨C1_amended.1 "foo" posZero (.number 1) rfl rfl,
    C1_amended.2.1 "foo" posZero [("bar", .number 1)] rfl,
    C1_amended.2.2.1 "foo" posZero (.string "s") ⟨.syntaxError, "boom", none⟩,
    C1_amended.2.2.2.1 "\"foo\"" "foo" posZero (.number 1) rfl rfl rfl,
    C1_amended.2.2.2.2 "\"a" posZero (.number 1) rfl⟩

/-- Claim C2, counterexample: a flatten projection whose `right`
continuation is `None`, applied to the array `[null]`, returns the
intermediate array as-is — and that array contains `Null`. -/
theorem C2_counterexample :
    visit (.make (.projection (.make .flatten posZero) (.make .none posZero)
        (.make .none posZero)) posZero) (.array [.null]) = .ok (.array [.null])
    ∧ Value.null ∈ [Value.null] :=
  ⟨by simp [visit, projection_intermediate, left_or_current, flatten_array,
      AST.node_type, RtResult.bind], by simp⟩

/-- Claim C2, amended: when the projection's `right` continuation is
present and the projected intermediate is an array, the result array
contains no `Null` (each element is passed through `right` and `Null`
results are filtered out); a hash-wildcard projection's array result
never contains `Null`.  When `right` is `None`, a
filter/flatten/list-wildcard/slice projection returns the intermediate
array as-is, which may contain `Null`. -/
theorem C2_amended :
    (∀ (k l r : AST) (pos : Position) (v : Value) (a res : List Value),
        r.node_type ≠ .none →
        projection_intermediate k l v = .ok (.array a) →
        visit (.make (.projection k l r) pos) v = .ok (.array res) →
        Value.null ∉ res)
    ∧ (∀ (l r : AST) (pos : Position) (v : Value) (res : List Value),
        visit (.make (.hashWildcardProjection l r) pos) v = .ok (.array res) →
        Value.null ∉ res) := by
  constructor
  · intro k l r pos v a res hr hint hvisit
    obtain ⟨nt, rpos⟩ := r
    simp only [visit] at hvisit
    rw [hint, RtResult.bind_ok] at hvisit
    simp only [AST.node_type] at hr hvisit
    cases nt
    case none => exact absurd rfl hr
    all_goals
      replace hvisit :
          (project_right (.make _ rpos) a).bind (fun res2 => RtResult.ok (Value.array res2))
            = RtResult.ok (Value.array res) := hvisit
      cases hp : project_right (.make _ rpos) a with
      | ok res2 =>
        rw [hp, RtResult.bind_ok] at hvisit
        simp only [RtResult.ok.injEq, Value.array.injEq] at hvisit
        subst hvisit
        exact project_right_no_null _ a res2 hp
      | err e => rw [hp, RtResult.bind_err] at hvisit; cases hvisit
      | panic => rw [hp, RtResult.bind_panic] at hvisit; cases hvisit
  · intro l r pos v res hvisit
    obtain ⟨nt, rpos⟩ := r
    simp only [visit] at hvisit
    cases ho : left_or_current l v with
    | ok obj =>
      rw [ho, RtResult.bind_ok] at hvisit
      cases obj
      case object entries =>
        simp only [AST.node_type] at hvisit
        cases nt
        case none =>
          replace hvisit :
              RtResult.ok (Value.array ((entries.map Prod.snd).filter fun x => !x.is_null))
                = RtResult.ok (Value.array res) := hvisit
          simp only [RtResult.ok.injEq, Value.array.injEq] at hvisit
          subst hvisit
          intro hmem
          have := List.of_mem_filter hmem
          simp [Value.is_null] at this
        all_goals
          replace hvisit :
              (project_right (.make _ rpos)
                  ((entries.map Prod.snd).filter fun x => !x.is_null)).bind
                  (fun res2 => RtResult.ok (Value.array res2))
                = RtResult.ok (Value.array res) := hvisit
          cases hp : project_right (.make _ rpos)
              ((entries.map Prod.snd).filter fun x => !x.is_null) with
          | ok res2 =>
            rw [hp, RtResult.bind_ok] at hvisit
            simp only [RtResult.ok.injEq, Value.array.injEq] at hvisit
            subst hvisit
            exact project_right_no_null _ _ res2 hp
          | err e => rw [hp, RtResult.bind_err] at hvisit; cases hvisit
          | panic => rw [hp, RtResult.bind_panic] at hvisit; cases hvisit
      all_goals
        replace hvisit : RtResult.ok Value.null = RtResult.ok (Value.array res) := hvisit
        simp at hvisit
    | err e => rw [ho, RtResult.bind_err] at hvisit; cases hvisit
    | panic => rw [ho, RtResult.bind_panic] at hvisit; cases hvisit

/-- Claim C2, witness: the amended statement at concrete inputs — a
flatten projection over `[null, 1]` whose `right` is the current node
yields `[1]`, and a hash-wildcard projection over
`{a: null, b: 2}` yields `[2]`; neither contains `Null`. -/
theorem C2_witness :
    (Value.null ∉ [Value.number 1]) ∧ (Value.null ∉ [Value.number 2]) :=
  ⟨C2_amended.1 (.make .flatten posZero) (.make .none posZero)
      (.make .currentNode posZero) posZero (.array [.null, .number 1])
      [.null, .number 1] [.number 1] (by simp [AST.node_type])
      (by simp [projection_intermediate, left_or_current, flatten_array, RtResult.bind])
      (by simp [visit, projection_intermediate, left_or_current, flatten_array,
        project_right, AST.node_type, RtResult.bind, Value.is_null]),
    C2_amended.2 (.make .none posZero) (.make .none posZero) posZero
      (.object [("a", .null), ("b", .number 2)]) [.number 2]
      (by simp [visit, left_or_current, AST.node_type, RtResult.bind, Value.is_null])⟩

/-- Claim C3, counterexample: `Value` equality is not reflexive — an
`Expression` value is not equal to itself — and it is not transitive:
`0 = ε/2` and `ε/2 = ε` hold under the epsilon comparison while `0 = ε`
does not. -/
theorem C3_counterexample :
    valueEq (.expression (.make .currentNode posZero))
        (.expression (.make .currentNode posZero)) = false
    ∧ valueEq (.number 0) (.number (EPSILON / 2)) = true
    ∧ valueEq (.number (EPSILON / 2)) (.number EPSILON) = true
    ∧ valueEq (.number 0) (.number EPSILON) = false := by
  refine ⟨by simp [valueEq], ?_, ?_, ?_⟩ <;> simp [valueEq, float_eq, EPSILON] <;> norm_num [abs_of_nonneg]

/-- Claim C3, amended: `Value` equality is symmetric; it is reflexive on
every value that contains no `Expression`; two `Expression` values
(including identical ones) are never equal, so reflexivity fails there;
and transitivity fails for numbers because numeric equality uses an
absolute epsilon (`0 = ε/2` and `ε/2 = ε` but `0 ≠ ε`). -/
theorem C3_amended :
    (∀ a b : Value, valueEq a b = valueEq b a)
    ∧ (∀ v : Value, exprFree v = true → valueEq v v = true)
    ∧ (∀ a1 a2 : AST, valueEq (.expression a1) (.expression a2) = false)
    ∧ (valueEq (.number 0) (.number (EPSILON / 2)) = true
        ∧ valueEq (.number (EPSILON / 2)) (.number EPSILON) = true
        ∧ valueEq (.number 0) (.number EPSILON) = false) := by
  refine ⟨valueEq_symm, valueEq_refl, fun _ _ => by simp [valueEq], ?_, ?_, ?_⟩ <;>
    simp [valueEq, float_eq, EPSILON] <;> norm_num [abs_of_nonneg]

/-- Claim C3, witness: the amended statement at concrete inputs. -/
theorem C3_witness :
    valueEq (.array [.number 1, .string "a"]) (.array [.number 1, .string "a"]) = true
    ∧ valueEq (.string "a") (.number 1) = valueEq (.number 1) (.string "a") :=
  ⟨C3_amended.2.1 (.array [.number 1, .string "a"])
      (by simp [exprFree, listExprFree]),
    C3_amended.1 (.string "a") (.number 1)⟩

/-- Claim C4: evidence of the code bug.  For the variadic `sum` function
(signature `[Variadic(Of(Number))]`, as registered in the `runtime.rs`
tests) called with `[1, "x"]`, the arity check passes, the final argument
`"x"` violates the `Number` constraint, yet `ensure_type` returns `Ok`
(its `while` loop stops at `args.len() - 1` and double-increments, so the
final argument is never checked), and the function body runs — and
panics on `as_f64().unwrap()`. -/
theorem C4_evidence :
    ensure_arity sum_function [.number 1, .string "x"] = .ok ()
    ∧ matches_data_type (.string "x") [DataType.number] = false
    ∧ ensure_type sum_function [.number 1, .string "x"] = .ok ()
    ∧ Runtime.call (fun n => if n = "sum" then some sum_function else none) "sum"
        [.number 1, .string "x"] = .panic := by
  refine ⟨rfl, rfl, ?_, ?_⟩
  · simp +decide [ensure_type, ensure_type_for_loop, ensure_type_while_loop,
      sum_function, ensure_matches_parameter, ensure_matches_data_type,
      matches_data_type, Parameter.get_param_types, RtResult.bind]
  · simp +decide [Runtime.call, ensure_arity, ensure_type, ensure_type_for_loop,
      ensure_type_while_loop, sum_function, sum_fold, ensure_matches_parameter,
      ensure_matches_data_type, matches_data_type, Parameter.get_param_types,
      Signature.is_variadic, Signature.get_min_args_count, Signature.get_max_args_count,
      Parameter.is_variadic, Parameter.is_required, Value.as_f64, RtResult.bind]

/-- Every error returned by the arity check has kind `InvalidArity`. -/
theorem ensure_arity_err_kind (func : Function) (args : List Value) (e : Error) :
    ensure_arity func args = .err e → e.kind = .invalidArity := by
  intro h
  simp only [ensure_arity] at h
  split at h
  · cases h; rfl
  · split at h
    · split at h
      · cases h; rfl
      · cases h
    · cases h

/-- Claim C8: for every function call whose argument list violates both
the arity constraint and a parameter type constraint, `Runtime::call`
returns the arity error, whose kind is `InvalidArity` — arity is checked
before types, and types before the body. -/
theorem C8_theorem :
    ∀ (lookup : String → Option Function) (fname : String) (func : Function)
      (args : List Value) (e e2 : Error),
      lookup fname = some func →
      ensure_arity func args = .err e →
      ensure_type func args = .err e2 →
      e2.kind = .invalidType →
      Runtime.call lookup fname args = .err e ∧ e.kind = .invalidArity := by
  intro lookup fname func args e e2 hlook harity htype hkind
  constructor
  · simp only [Runtime.call, hlook]
    rw [harity, RtResult.bind_err]
  · exact ensure_arity_err_kind func args e harity

/-- Claim C8, witness: the theorem at `add` (two required `Number`
parameters, as registered in the `runtime.rs` tests) called with the
single string argument `"x"`, which violates both arity and type. -/
theorem C8_witness :
    Runtime.call (fun n => if n = "add" then some add_function else none) "add"
        [.string "x"] = .err (Error.too_few_arguments "add" 2 1 false)
    ∧ (Error.too_few_arguments "add" 2 1 false).kind = .invalidArity :=
  C8_theorem (fun n => if n = "add" then some add_function else none) "add"
    add_function [.string "x"] (Error.too_few_arguments "add" 2 1 false)
    ⟨.invalidType, invalid_type_message "add" "param0", none⟩ rfl rfl
    (by simp +decide [ensure_type, ensure_type_for_loop, ensure_type_while_loop,
      add_function, ensure_matches_parameter, ensure_matches_data_type,
      matches_data_type, Parameter.get_param_types, RtResult.bind]) rfl

/-- Claim C9: a sub-expression `A.B` returns `Null` whenever `A`
evaluates to `Null`, for every right-hand side `B` (which is therefore
not evaluated); a pipe expression `A | B` always evaluates `B` against
`A`'s result, including when that result is `Null`. -/
theorem C9_theorem :
    (∀ (l r : AST) (pos : Position) (v : Value),
        visit l v = .ok .null →
        visit (.make (.subExpression l r) pos) v = .ok .null)
    ∧ (∀ (l r : AST) (pos : Position) (v x : Value),
        visit l v = .ok x →
        visit (.make (.pipeExpression l r) pos) v = visit r x) := by
  constructor
  · intro l r pos v h
    simp only [visit]
    rw [h, RtResult.bind_ok]
  · intro l r pos v x h
    simp only [visit]
    rw [h, RtResult.bind_ok]

/-- Claim C9, witness: with the current value `null`, the sub-expression
short-circuits to `Null` while the pipe still evaluates its right-hand
side (a raw string) against the `Null` result. -/
theorem C9_witness :
    visit (.make (.subExpression (.make .currentNode posZero)
        (.make (.rawString "x") posZero)) posZero) .null = .ok .null
    ∧ visit (.make (.pipeExpression (.make .currentNode posZero)
        (.make (.rawString "x") posZero)) posZero) .null
      = visit (.make (.rawString "x") posZero) .null :=
  ⟨C9_theorem.1 (.make .currentNode posZero) (.make (.rawString "x") posZero)
      posZero .null (by simp [visit]),
    C9_theorem.2 (.make .currentNode posZero) (.make (.rawString "x") posZero)
      posZero .null .null (by simp [visit])⟩

/-- Claim C5, counterexample: a slice with step 0 over `[1, 2, 3]`
returns an error whose kind is `InvalidValue`, not `Syntax` (the code
builds it with the syntax builder but overrides the kind via
`set_kind(Kind::InvalidValue)`). -/
theorem C5_counterexample :
    visit (.make (.projection (.make (.slice ⟨none, none, some 0⟩) posZero)
        (.make .none posZero) (.make .none posZero)) posZero)
        (.array [.number 1, .number 2, .number 3])
      = .err ⟨.invalidValue, "slice step cannot be 0", some posZero⟩
    ∧ Kind.invalidValue ≠ Kind.syntaxError := by
  refine ⟨?_, by decide⟩
  simp +decide [visit, projection_intermediate, left_or_current,
    compute_slice_params, AST.node_type, RtResult.bind]

/-- Claim C5, amended: for every array or string input, evaluating a
slice whose step is 0 never returns a value: it returns an
`InvalidValue` error (built by the syntax-error builder with its kind
overridden) whose message is "slice step cannot be 0", carrying the
position of the slice node. -/
theorem C5_amended :
    ∀ (sl : Slice) (kpos : Position) (l r : AST) (ppos : Position) (v w : Value),
      sl.step = some 0 →
      left_or_current l v = .ok w →
      (w.is_array = true ∨ w.is_str = true) →
      visit (.make (.projection (.make (.slice sl) kpos) l r) ppos) v
        = .err ⟨.invalidValue, "slice step cannot be 0", some kpos⟩ := by
  intro sl kpos l r ppos v w hstep hw hws
  have hcsp : ∀ n : Nat, compute_slice_params sl n kpos
      = .err ⟨.invalidValue, "slice step cannot be 0", some kpos⟩ := by
    intro n
    simp [compute_slice_params, hstep]
  have hpi : projection_intermediate (.make (.slice sl) kpos) l v
      = .err ⟨.invalidValue, "slice step cannot be 0", some kpos⟩ := by
    simp only [projection_intermediate]
    rw [hw, RtResult.bind_ok]
    cases w with
    | array items =>
      show (compute_slice_params sl items.length kpos).bind
          (fun p => RtResult.ok (Value.array (slice_array items p.1 p.2.1 p.2.2))) = _
      rw [hcsp items.length]
      rfl
    | string text =>
      show (compute_slice_params sl text.length kpos).bind
          (fun p => RtResult.ok (Value.string (String.mk (slice_array text.data p.1 p.2.1 p.2.2)))) = _
      rw [hcsp text.length]
      rfl
    | _ => simp [Value.is_array, Value.is_str] at hws
  simp only [visit]
  rw [hpi, RtResult.bind_err]

/-- Claim C5, witness: the amended statement on the concrete array
`[1]` and on the concrete string `"ab"`. -/
theorem C5_witness :
    visit (.make (.projection (.make (.slice ⟨some 0, none, some 0⟩) posZero)
        (.make .none posZero) (.make .none posZero)) posZero) (.array [.number 1])
      = .err ⟨.invalidValue, "slice step cannot be 0", some posZero⟩
    ∧ visit (.make (.projection (.make (.slice ⟨some 0, none, some 0⟩) posZero)
        (.make .none posZero) (.make .none posZero)) posZero) (.string "ab")
      = .err ⟨.invalidValue, "slice step cannot be 0", some posZero⟩ :=
  ⟨C5_amended ⟨some 0, none, some 0⟩ posZero (.make .none posZero)
      (.make .none posZero) posZero (.array [.number 1]) (.array [.number 1]) rfl
      (by simp [left_or_current]) (Or.inl rfl),
    C5_amended ⟨some 0, none, some 0⟩ posZero (.make .none posZero)
      (.make .none posZero) posZero (.string "ab") (.string "ab") rfl
      (by simp [left_or_current]) (Or.inr rfl)⟩

/-- Claim C10: evidence of the code bug.  A slice with a negative step
and an omitted start, applied to an empty array or empty string,
computes `(array_length - 1) as isize` on the unsigned length 0: in a
debug build the subtraction overflows and panics, so evaluation is not
total.  (In a release build the subtraction wraps, reinterpreting as
`isize` gives −1, and `slice_array` with parameters `(-1, -1, -1)` then
returns the empty result — the last conjunct.) -/
theorem C10_evidence :
    compute_slice_params ⟨none, none, some (-1)⟩ 0 posZero = .panic
    ∧ visit (.make (.projection (.make (.slice ⟨none, none, some (-1)⟩) posZero)
        (.make .none posZero) (.make .none posZero)) posZero) (.array []) = .panic
    ∧ visit (.make (.projection (.make (.slice ⟨none, none, some (-1)⟩) posZero)
        (.make .none posZero) (.make .none posZero)) posZero) (.string "") = .panic
    ∧ slice_array ([] : List Value) (-1) (-1) (-1) = [] := by
  refine ⟨rfl, ?_, ?_, ?_⟩
  · simp +decide [visit, projection_intermediate, left_or_current,
      compute_slice_params, AST.node_type, RtResult.bind]
  · simp +decide [visit, projection_intermediate, left_or_current,
      compute_slice_params, AST.node_type, RtResult.bind]
  · simp [slice_array]

/-- `i64::MAX = 2^63 - 1` has 63 bits. -/
theorem log2_i64_max : Nat.log2 9223372036854775807 = 62 := by
  rw [Nat.log2_eq_log_two]
  exact Nat.log_eq_of_pow_le_of_lt_pow (by norm_num) (by norm_num)

/-- `(i64::MAX) as f64` rounds `2^63 - 1` (not representable in 53 bits
of mantissa) up to `2^63`. -/
theorem i64_max_as_f64 : i64_as_f64 i64_max = 2 ^ 63 := by
  norm_num [i64_as_f64, i64_max, rne_div, log2_i64_max]

/-- Claim C7, counterexample: with the input `{a: 21, b: 0}`, the
expression `a // b` divides by zero — the float quotient is infinite —
yet evaluation returns a value, not a `NotANumber` error: the infinite
quotient saturates to `i64::MAX` under `as i64` and the final `as f64`
rounds `2^63 - 1` up to `2^63`, so the result is ok(2^63); `a % b`
likewise returns ok(0) (NaN casts to 0 and `0 as f64` is 0).  Plain
`a / b` does return `NotANumber`. -/
theorem C7_counterexample :
    visit (.make (.arithmeticExpression (.make (.unquotedIdentifier "a") posZero)
        (.make .div posZero) (.make (.unquotedIdentifier "b") posZero)) posZero)
        (.object [("a", .number 21), ("b", .number 0)])
      = .ok (.number ((2 : ℚ) ^ 63))
    ∧ visit (.make (.arithmeticExpression (.make (.unquotedIdentifier "a") posZero)
        (.make .modulo posZero) (.make (.unquotedIdentifier "b") posZero)) posZero)
        (.object [("a", .number 21), ("b", .number 0)])
      = .ok (.number 0)
    ∧ visit (.make (.arithmeticExpression (.make (.unquotedIdentifier "a") posZero)
        (.make .divide posZero) (.make (.unquotedIdentifier "b") posZero)) posZero)
        (.object [("a", .number 21), ("b", .number 0)])
      = .err ⟨.notANumber, "the arithmetic expression evaluated to an invalid number",
          some posZero⟩ := by
  refine ⟨?_, ?_, ?_⟩
  · have hc : cast_f64_to_i64 (fDiv 21 0) = i64_max := by
      norm_num [fDiv, cast_f64_to_i64]
    have h1 : arithmetic_result .div 21 0 posZero = .ok (.number ((2 : ℚ) ^ 63)) := by
      simp [arithmetic_result, hc, i64_max_as_f64, from_f64_rt, Value.from_f64]
    simp +decide [visit, visit_arithmetic_binary, identifierVisit, lookupKey,
      Value.as_f64, AST.node_type, AST.position, RtResult.bind, h1]
  · have h2 : arithmetic_result .modulo 21 0 posZero = .ok (.number 0) := by
      norm_num [arithmetic_result, f64_rem, cast_f64_to_i64, i64_as_f64,
        from_f64_rt, Value.from_f64]
    simp +decide [visit, visit_arithmetic_binary, identifierVisit, lookupKey,
      Value.as_f64, AST.node_type, AST.position, RtResult.bind, h2]
  · have h3 : arithmetic_result .divide 21 0 posZero
        = .err ⟨.notANumber, "the arithmetic expression evaluated to an invalid number",
            some posZero⟩ := by
      norm_num [arithmetic_result, fDiv, from_f64_rt, Value.from_f64]
    simp +decide [visit, visit_arithmetic_binary, identifierVisit, lookupKey,
      Value.as_f64, AST.node_type, AST.position, RtResult.bind, h3]

/-- Claim C7, amended: `+ − × /` are computed as float operations and
`%` and `//` as signed-integer (`as i64`) truncations of the float
modulo and quotient re-cast to `f64`; `+ − × /` return a `NotANumber`
error exactly when their float result is non-finite — division by zero
for `/`, and overflow past the `f64` range (exact magnitude reaching
`2^1024 − 2^970`) for all four — whereas `%` and `//` saturate through
the `as i64` cast (NaN to 0, infinities and out-of-range quotients to
the `i64` bounds) and re-cast to `f64`, so they always return a finite
value and never `NotANumber`. -/
theorem C7_amended :
    (∀ (a b : ℚ) (pos : Position), b = 0 →
        arithmetic_result .divide a b pos
          = .err ⟨.notANumber, "the arithmetic expression evaluated to an invalid number",
              some pos⟩)
    ∧ (∀ (a b : ℚ) (pos : Position), b ≠ 0 → |a / b| < overflow_threshold →
        arithmetic_result .divide a b pos = .ok (.number (a / b)))
    ∧ (∀ (a b : ℚ) (pos : Position), b ≠ 0 → overflow_threshold ≤ |a / b| →
        arithmetic_result .divide a b pos
          = .err ⟨.notANumber, "the arithmetic expression evaluated to an invalid number",
              some pos⟩)
    ∧ (∀ (a b : ℚ) (pos : Position), |a + b| < overflow_threshold →
        arithmetic_result .plus a b pos = .ok (.number (a + b)))
    ∧ (∀ (a b : ℚ) (pos : Position), overflow_threshold ≤ |a + b| →
        arithmetic_result .plus a b pos
          = .err ⟨.notANumber, "the arithmetic expression evaluated to an invalid number",
              some pos⟩)
    ∧ (∀ (a b : ℚ) (pos : Position), |a - b| < overflow_threshold →
        arithmetic_result .minus a b pos = .ok (.number (a - b)))
    ∧ (∀ (a b : ℚ) (pos : Position), overflow_threshold ≤ |a - b| →
        arithmetic_result .minus a b pos
          = .err ⟨.notANumber, "the arithmetic expression evaluated to an invalid number",
              some pos⟩)
    ∧ (∀ (a b : ℚ) (pos : Position), |a * b| < overflow_threshold →
        arithmetic_result .multiply a b pos = .ok (.number (a * b)))
    ∧ (∀ (a b : ℚ) (pos : Position), overflow_threshold ≤ |a * b| →
        arithmetic_result .multiply a b pos
          = .err ⟨.notANumber, "the arithmetic expression evaluated to an invalid number",
              some pos⟩)
    ∧ (∀ (a b : ℚ) (pos : Position),
        arithmetic_result .modulo a b pos
          = .ok (.number (i64_as_f64 (cast_f64_to_i64 (f64_rem a b)))))
    ∧ (∀ (a b : ℚ) (pos : Position),
        arithmetic_result .div a b pos
          = .ok (.number (i64_as_f64 (cast_f64_to_i64 (fDiv a b))))) := by
  have hTpos : (0 : ℚ) < overflow_threshold := by norm_num [overflow_threshold]
  have hfin : ∀ (q : ℚ) (pos : Position), |q| < overflow_threshold →
      from_f64_rt (to_f64 q) pos = .ok (.number q) := by
    intro q pos h
    rw [abs_lt] at h
    have h1 : ¬ overflow_threshold ≤ q := not_le.mpr h.2
    have h2 : ¬ q ≤ -overflow_threshold := not_le.mpr (by linarith)
    simp [to_f64, h1, h2, from_f64_rt, Value.from_f64]
  have hinf : ∀ (q : ℚ) (pos : Position), overflow_threshold ≤ |q| →
      from_f64_rt (to_f64 q) pos
        = .err ⟨.notANumber, "the arithmetic expression evaluated to an invalid number",
            some pos⟩ := by
    intro q pos h
    rcases le_abs.mp h with h1 | h1
    · simp [to_f64, h1, from_f64_rt, Value.from_f64]
    · have h2 : ¬ overflow_threshold ≤ q := not_le.mpr (by linarith)
      have h3 : q ≤ -overflow_threshold := by linarith
      simp [to_f64, h2, h3, from_f64_rt, Value.from_f64]
  refine ⟨?_, ?_, ?_, ?_, ?_, ?_, ?_, ?_, ?_, fun a b pos => rfl, fun a b pos => rfl⟩
  · intro a b pos hb
    subst hb
    simp only [arithmetic_result, fDiv, if_pos rfl]
    split_ifs <;> rfl
  · intro a b pos hb hq
    simp only [arithmetic_result, fDiv, if_neg hb]
    exact hfin _ _ hq
  · intro a b pos hb hq
    simp only [arithmetic_result, fDiv, if_neg hb]
    exact hinf _ _ hq
  · intro a b pos hq
    simp only [arithmetic_result, fAdd]
    exact hfin _ _ hq
  · intro a b pos hq
    simp only [arithmetic_result, fAdd]
    exact hinf _ _ hq
  · intro a b pos hq
    simp only [arithmetic_result, fSub]
    exact hfin _ _ hq
  · intro a b pos hq
    simp only [arithmetic_result, fSub]
    exact hinf _ _ hq
  · intro a b pos hq
    simp only [arithmetic_result, fMul]
    exact hfin _ _ hq
  · intro a b pos hq
    simp only [arithmetic_result, fMul]
    exact hinf _ _ hq

/-- Claim C7, witness: the amended statement at concrete inputs:
`1 / 0` is `NotANumber`; `1 / 2` is `0.5`; `2^1100 / 1`,
`2^1023 + 2^1023`, `2^1023 − (−2^1023)` and `2^600 × 2^600` overflow to
`NotANumber`; `21 + 2`, `21 − 2`, `21 × 2` are in range; `21 % 2` and
`21 // 2` always produce a value. -/
theorem C7_witness :
    arithmetic_result .divide 1 0 posZero
      = .err ⟨.notANumber, "the arithmetic expression evaluated to an invalid number",
          some posZero⟩
    ∧ arithmetic_result .divide 1 2 posZero = .ok (.number (1 / 2))
    ∧ arithmetic_result .divide (2 ^ 1100) 1 posZero
      = .err ⟨.notANumber, "the arithmetic expression evaluated to an invalid number",
          some posZero⟩
    ∧ arithmetic_result .plus 21 2 posZero = .ok (.number (21 + 2))
    ∧ arithmetic_result .plus (2 ^ 1023) (2 ^ 1023) posZero
      = .err ⟨.notANumber, "the arithmetic expression evaluated to an invalid number",
          some posZero⟩
    ∧ arithmetic_result .minus 21 2 posZero = .ok (.number (21 - 2))
    ∧ arithmetic_result .minus (2 ^ 1023) (-(2 ^ 1023)) posZero
      = .err ⟨.notANumber, "the arithmetic expression evaluated to an invalid number",
          some posZero⟩
    ∧ arithmetic_result .multiply 21 2 posZero = .ok (.number (21 * 2))
    ∧ arithmetic_result .multiply (2 ^ 600) (2 ^ 600) posZero
      = .err ⟨.notANumber, "the arithmetic expression evaluated to an invalid number",
          some posZero⟩
    ∧ arithmetic_result .modulo 21 2 posZero
      = .ok (.number (i64_as_f64 (cast_f64_to_i64 (f64_rem 21 2))))
    ∧ arithmetic_result .div 21 2 posZero
      = .ok (.number (i64_as_f64 (cast_f64_to_i64 (fDiv 21 2)))) :=
  ⟨C7_amended.1 1 0 posZero rfl,
    C7_amended.2.1 1 2 posZero (by norm_num)
      (by norm_num [overflow_threshold, abs_of_nonneg]),
    C7_amended.2.2.1 (2 ^ 1100) 1 posZero (by norm_num)
      (by norm_num [overflow_threshold, abs_of_nonneg]),
    C7_amended.2.2.2.1 21 2 posZero
      (by norm_num [overflow_threshold, abs_of_nonneg]),
    C7_amended.2.2.2.2.1 (2 ^ 1023) (2 ^ 1023) posZero
      (by norm_num [overflow_threshold, abs_of_nonneg]),
    C7_amended.2.2.2.2.2.1 21 2 posZero
      (by norm_num [overflow_threshold, abs_of_nonneg]),
    C7_amended.2.2.2.2.2.2.1 (2 ^ 1023) (-(2 ^ 1023)) posZero
      (by norm_num [overflow_threshold, abs_of_nonneg]),
    C7_amended.2.2.2.2.2.2.2.1 21 2 posZero
      (by norm_num [overflow_threshold, abs_of_nonneg]),
    C7_amended.2.2.2.2.2.2.2.2.1 (2 ^ 600) (2 ^ 600) posZero
      (by norm_num [overflow_threshold, abs_of_nonneg]),
    C7_amended.2.2.2.2.2.2.2.2.2.1 21 2 posZero,
    C7_amended.2.2.2.2.2.2.2.2.2.2 21 2 posZero⟩

/-- Claim C6, counterexample: `find_first("ab", "a", -1)` returns 0.
Under the claimed semantics (negative start has the subject length added,
then clamped, giving start = 1) the needle is not in `[1, 2)` and the
result would be `Null`: the code does not add the length to a negative
index, it clamps it to 0. -/
theorem C6_counterexample :
    find_first_body [.string "ab", .string "a", .number (-1)] = .ok (.number 0)
    ∧ find_first_claimed [.string "ab", .string "a", .number (-1)] = .ok .null
    ∧ ((.ok (.number 0) : RtResult Value) ≠ .ok .null) :=
  ⟨rfl, rfl, by simp⟩

set_option maxHeartbeats 2000000 in
/-- Claim C6, amended: in `find_first(subject, sub, start, end)` a
negative integer `start` is clamped to 0 (the subject's length is not
added), so it behaves exactly like `start = 0`, whether or not `end` is
supplied; a negative integer `end` is truncated to 0 by the `as usize`
cast (again no length addition), so with `start = 0` the search range is
empty and the result is `Null`; a non-integer numeric `start` yields an
`InvalidValue` error (in the three- and the four-argument call), as does
a non-integer numeric `end`; and an empty subject or empty needle yields
`Null` regardless of the optional arguments. -/
theorem C6_amended :
    (∀ (subject sub : String) (s : ℚ), s < 0 → is_integer s = true →
        find_first_body [.string subject, .string sub, .number s]
          = find_first_body [.string subject, .string sub, .number 0])
    ∧ (∀ (subject sub : String) (s e : ℚ), s < 0 → is_integer s = true →
        find_first_body [.string subject, .string sub, .number s, .number e]
          = find_first_body [.string subject, .string sub, .number 0, .number e])
    ∧ (∀ (subject sub : String) (e : ℚ), e < 0 → is_integer e = true →
        find_first_body [.string subject, .string sub, .number 0, .number e] = .ok .null)
    ∧ (∀ (subject sub : String) (s : ℚ),
        subject.length ≠ 0 → sub.length ≠ 0 → is_integer s = false →
        (find_first_body [.string subject, .string sub, .number s]).errKind
          = some .invalidValue)
    ∧ (∀ (subject sub : String) (s e : ℚ),
        subject.length ≠ 0 → sub.length ≠ 0 → is_integer s = false →
        (find_first_body [.string subject, .string sub, .number s, .number e]).errKind
          = some .invalidValue)
    ∧ (∀ (subject sub : String) (s e : ℚ),
        subject.length ≠ 0 → sub.length ≠ 0 →
        is_integer s = true → is_integer e = false →
        (find_first_body [.string subject, .string sub, .number s, .number e]).errKind
          = some .invalidValue)
    ∧ (∀ (subject sub : String) (s e : ℚ),
        (subject.length = 0 ∨ sub.length = 0) →
        find_first_body [.string subject, .string sub] = .ok .null
        ∧ find_first_body [.string subject, .string sub, .number s] = .ok .null
        ∧ find_first_body [.string subject, .string sub, .number s, .number e]
          = .ok .null) := by
  refine ⟨?_, ?_, ?_, ?_, ?_, ?_, ?_⟩
  · intro subject sub s hneg hint
    have hint0 : is_integer (0 : ℚ) = true := by simp [is_integer]
    simp +decide [find_first_body, argStr, argNum, RtResult.bind_ok, RtResult.bind_err,
      hint, hint0, max_eq_right hneg.le, max_self]
  · intro subject sub s e hneg hint
    have hint0 : is_integer (0 : ℚ) = true := by simp [is_integer]
    simp +decide [find_first_body, argStr, argNum, RtResult.bind_ok, RtResult.bind_err,
      hint, hint0, max_eq_right hneg.le, max_self]
  · intro subject sub e hneg hint
    by_cases hemp : (subject.data = [] ∨ sub.data = [])
    · simp +decide [find_first_body, argStr, argNum, RtResult.bind_ok, hemp]
    · have h2 : sub.data ≠ [] := fun h => hemp (Or.inr h)
      have hm : 1 - sub.length = 0 :=
        Nat.sub_eq_zero_of_le (List.length_pos.mpr h2)
      have hminE : min e ((subject.length : Nat) : ℚ) = e :=
        min_eq_left (le_trans hneg.le (by positivity))
      have hfloorE : (⌊e⌋ : Int).toNat = 0 :=
        Int.toNat_of_nonpos (Int.floor_nonpos hneg.le)
      simp +decide [find_first_body, argStr, argNum, RtResult.bind_ok, hemp, hint,
        hminE, hfloorE, hm]
  · intro subject sub s h1 h2 hint
    have hsub : subject.data ≠ [] := fun hh => h1 (by simp [String.length, hh])
    have hsub2 : sub.data ≠ [] := fun hh => h2 (by simp [String.length, hh])
    simp +decide [find_first_body, argStr, argNum, RtResult.bind_ok, hsub, hsub2,
      hint, RtResult.errKind]
  · intro subject sub s e h1 h2 hint
    have hsub : subject.data ≠ [] := fun hh => h1 (by simp [String.length, hh])
    have hsub2 : sub.data ≠ [] := fun hh => h2 (by simp [String.length, hh])
    simp +decide [find_first_body, argStr, argNum, RtResult.bind_ok, hsub, hsub2,
      hint, RtResult.errKind]
  · intro subject sub s e h1 h2 hintS hintE
    have hsub : subject.data ≠ [] := fun hh => h1 (by simp [String.length, hh])
    have hsub2 : sub.data ≠ [] := fun hh => h2 (by simp [String.length, hh])
    simp +decide [find_first_body, argStr, argNum, RtResult.bind_ok, hsub, hsub2,
      hintS, hintE, RtResult.errKind]
  · intro subject sub s e hemp
    simp only [String.length, List.length_eq_zero] at hemp
    refine ⟨?_, ?_, ?_⟩ <;>
      simp [find_first_body, argStr, argNum, RtResult.bind_ok, hemp]

/-- Claim C6, witness: the amended statement at concrete inputs —
`find_first("ab", "a", -1)` equals `find_first("ab", "a", 0)` and
`find_first("ab", "a", -1, 5)` equals `find_first("ab", "a", 0, 5)`;
`find_first("ab", "a", 0, -1)` is `Null`; `find_first("ab", "a", 0.5)`,
`find_first("ab", "a", 0.5, 1)` and `find_first("ab", "a", 1, 0.5)` are
`InvalidValue` errors; `find_first("", "a")` is `Null`. -/
theorem C6_witness :
    find_first_body [.string "ab", .string "a", .number (-1)]
      = find_first_body [.string "ab", .string "a", .number 0]
    ∧ find_first_body [.string "ab", .string "a", .number (-1), .number 5]
      = find_first_body [.string "ab", .string "a", .number 0, .number 5]
    ∧ find_first_body [.string "ab", .string "a", .number 0, .number (-1)] = .ok .null
    ∧ (find_first_body [.string "ab", .string "a", .number (1 / 2)]).errKind
      = some .invalidValue
    ∧ (find_first_body [.string "ab", .string "a", .number (1 / 2), .number 1]).errKind
      = some .invalidValue
    ∧ (find_first_body [.string "ab", .string "a", .number 1, .number (1 / 2)]).errKind
      = some .invalidValue
    ∧ find_first_body [.string "", .string "a"] = .ok .null :=
  ⟨C6_amended.1 "ab" "a" (-1) (by norm_num) rfl,
    C6_amended.2.1 "ab" "a" (-1) 5 (by norm_num) rfl,
    C6_amended.2.2.1 "ab" "a" (-1) (by norm_num) rfl,
    C6_amended.2.2.2.1 "ab" "a" (1 / 2) (by decide) (by decide) (by norm_num [is_integer]),
    C6_amended.2.2.2.2.1 "ab" "a" (1 / 2) 1 (by decide) (by decide)
      (by norm_num [is_integer]),
    C6_amended.2.2.2.2.2.1 "ab" "a" 1 (1 / 2) (by decide) (by decide) rfl
      (by norm_num [is_integer]),
    (C6_amended.2.2.2.2.2.2 "" "a" 0 0 (Or.inl rfl)).1⟩

end JmesPath